import Mathlib

/-
  Verification development for the elk-python repository.

  This file gives a shallow embedding of the code in src/elk (server.py,
  types.py, java_utils.py) and proves/refutes the frozen claims about it.
  Stateful Python code (the module-global `_server_process`) becomes explicit
  state passing; external effects (subprocess launch, stream reads/writes,
  the filesystem, the Java probe) are supplied by environment records, and
  the observable stream operations of one `compute_layout` call are recorded
  as an event trace.  Python floats are modelled as integers (no claim
  depends on float semantics), and library code that is not part of src
  (pydantic validation/serialization, json.loads) is modelled from the
  repository's type declarations and the spec, as noted on each definition.
-/

namespace ElkSpec

/-- JSON-like values, modelling the Python dict/list/str/number/bool/None
data that flows through the protocol.  Numbers are modelled as integers. -/
inductive JVal where
  | str (s : String)
  | num (n : Int)
  | bool (b : Bool)
  | null
  | arr (xs : List JVal)
  | obj (fields : List (String × JVal))

mutual

/-- Structural size of a JSON value; dominates the nesting depth, so it is a
safe fuel bound for the recursive validator below. -/
def jsize : JVal → Nat
  | .str _ => 1
  | .num _ => 1
  | .bool _ => 1
  | .null => 1
  | .arr xs => 1 + jsizeL xs
  | .obj fs => 1 + jsizeF fs

def jsizeL : List JVal → Nat
  | [] => 0
  | x :: xs => jsize x + jsizeL xs

def jsizeF : List (String × JVal) → Nat
  | [] => 0
  | (_, v) :: fs => jsize v + jsizeF fs

end

/-- Look a key up in an object's field list (Python dict access). -/
def lookupField (fs : List (String × JVal)) (k : String) : Option JVal :=
  match fs with
  | [] => none
  | (k', v) :: rest => if k' = k then some v else lookupField rest k

/- ----------------------------------------------------------------
  Data model from src/elk/types.py (input side used by compute_layout).
---------------------------------------------------------------- -/

/-- types.py ElkProperties: `algorithm: str | None = None`. -/
structure ElkProperties where
  algorithm : Option String
deriving DecidableEq

/-- types.py ElkLabel. -/
structure ElkLabel where
  text : String
  width : Option Int
  height : Option Int
  x : Option Int
  y : Option Int
deriving DecidableEq

/-- types.py ElkPort. -/
structure ElkPort where
  id : String
  width : Option Int
  height : Option Int
  x : Option Int
  y : Option Int
  properties : Option ElkProperties
deriving DecidableEq

/-- types.py ElkEdge: `id`, `sources`, `targets` are required fields. -/
structure ElkEdge where
  id : String
  sources : List String
  targets : List String
  properties : Option ElkProperties
  labels : Option (List ElkLabel)
deriving DecidableEq

/-- types.py ElkNode: only `id` is required; `children` is recursive. -/
inductive ElkNode where
  | mk (id : String) (width height x y : Option Int)
       (properties : Option ElkProperties)
       (labels : Option (List ElkLabel))
       (ports : Option (List ElkPort))
       (children : Option (List ElkNode))
       (edges : Option (List ElkEdge)) : ElkNode

def ElkNode.id : ElkNode → String
  | .mk i _ _ _ _ _ _ _ _ _ => i

def ElkNode.width : ElkNode → Option Int
  | .mk _ w _ _ _ _ _ _ _ _ => w

def ElkNode.height : ElkNode → Option Int
  | .mk _ _ h _ _ _ _ _ _ _ => h

def ElkNode.children : ElkNode → Option (List ElkNode)
  | .mk _ _ _ _ _ _ _ _ c _ => c

mutual

/-- Structural size of a node tree; dominates the nesting depth, so it is a
safe fuel bound for the recursive serializer below. -/
def nsize : ElkNode → Nat
  | .mk _ _ _ _ _ _ _ _ c _ =>
      1 + (match c with | none => 0 | some cs => nsizeL cs)

def nsizeL : List ElkNode → Nat
  | [] => 0
  | n :: ns => nsize n + nsizeL ns

end

/-- types.py ElkGraph: the root object; only `id` is required. -/
structure ElkGraph where
  id : String
  properties : Option ElkProperties
  children : Option (List ElkNode)
  edges : Option (List ElkEdge)

/- ----------------------------------------------------------------
  Validation.  Modelled from the spec: pydantic's `ElkGraph(**graph)`
  validation is library code not under src/; it is modelled here from the
  field declarations in src/elk/types.py — a declared field with no default
  is required, `T | None = None` fields accept absence or null, extra keys
  are ignored (pydantic's default), and pydantic's lax numeric/string
  coercions are abstracted to exact type checks.
---------------------------------------------------------------- -/

/-- Required string field. -/
def reqStr (fs : List (String × JVal)) (k : String) : Except String String :=
  match lookupField fs k with
  | some (.str s) => .ok s
  | some _ => .error ("Input should be a valid string: " ++ k)
  | none => .error ("Field required: " ++ k)

/-- Optional numeric field (`float | None = None`). -/
def optNum (fs : List (String × JVal)) (k : String) : Except String (Option Int) :=
  match lookupField fs k with
  | none => .ok none
  | some .null => .ok none
  | some (.num n) => .ok (some n)
  | some _ => .error ("Input should be a valid number: " ++ k)

/-- Optional string field (`str | None = None`). -/
def optStr (fs : List (String × JVal)) (k : String) : Except String (Option String) :=
  match lookupField fs k with
  | none => .ok none
  | some .null => .ok none
  | some (.str s) => .ok (some s)
  | some _ => .error ("Input should be a valid string: " ++ k)

/-- Required `List[str]` field. -/
def reqStrList (fs : List (String × JVal)) (k : String) : Except String (List String) :=
  match lookupField fs k with
  | some (.arr xs) =>
      xs.mapM (fun x =>
        match x with
        | .str s => Except.ok s
        | _ => Except.error ("Input should be a valid string: " ++ k))
  | some _ => .error ("Input should be a valid list: " ++ k)
  | none => .error ("Field required: " ++ k)

def validateElkProperties (j : JVal) : Except String ElkProperties :=
  match j with
  | .obj fs => do
      let a ← optStr fs ("algorithm")
      .ok ⟨a⟩
  | _ => .error ("Input should be a valid dictionary: ElkProperties")

/-- Optional nested `ElkProperties | None = None` field. -/
def optProps (fs : List (String × JVal)) (k : String) :
    Except String (Option ElkProperties) :=
  match lookupField fs k with
  | none => .ok none
  | some .null => .ok none
  | some v => (validateElkProperties v).map some

def validateElkLabel (j : JVal) : Except String ElkLabel :=
  match j with
  | .obj fs => do
      let t ← reqStr fs ("text")
      let w ← optNum fs ("width")
      let h ← optNum fs ("height")
      let x ← optNum fs ("x")
      let y ← optNum fs ("y")
      .ok ⟨t, w, h, x, y⟩
  | _ => .error ("Input should be a valid dictionary: ElkLabel")

/-- Optional `List[ElkLabel] | None = None` field. -/
def optLabels (fs : List (String × JVal)) (k : String) :
    Except String (Option (List ElkLabel)) :=
  match lookupField fs k with
  | none => .ok none
  | some .null => .ok none
  | some (.arr xs) => (xs.mapM validateElkLabel).map some
  | some _ => .error ("Input should be a valid list: " ++ k)

def validateElkPort (j : JVal) : Except String ElkPort :=
  match j with
  | .obj fs => do
      let i ← reqStr fs ("id")
      let w ← optNum fs ("width")
      let h ← optNum fs ("height")
      let x ← optNum fs ("x")
      let y ← optNum fs ("y")
      let p ← optProps fs ("properties")
      .ok ⟨i, w, h, x, y, p⟩
  | _ => .error ("Input should be a valid dictionary: ElkPort")

/-- Optional `List[ElkPort] | None = None` field. -/
def optPorts (fs : List (String × JVal)) (k : String) :
    Except String (Option (List ElkPort)) :=
  match lookupField fs k with
  | none => .ok none
  | some .null => .ok none
  | some (.arr xs) => (xs.mapM validateElkPort).map some
  | some _ => .error ("Input should be a valid list: " ++ k)

def validateElkEdge (j : JVal) : Except String ElkEdge :=
  match j with
  | .obj fs => do
      let i ← reqStr fs ("id")
      let s ← reqStrList fs ("sources")
      let t ← reqStrList fs ("targets")
      let p ← optProps fs ("properties")
      let l ← optLabels fs ("labels")
      .ok ⟨i, s, t, p, l⟩
  | _ => .error ("Input should be a valid dictionary: ElkEdge")

/-- Optional `List[ElkEdge] | None = None` field. -/
def optEdges (fs : List (String × JVal)) (k : String) :
    Except String (Option (List ElkEdge)) :=
  match lookupField fs k with
  | none => .ok none
  | some .null => .ok none
  | some (.arr xs) => (xs.mapM validateElkEdge).map some
  | some _ => .error ("Input should be a valid list: " ++ k)

/-- Recursive ElkNode validation.  The fuel argument only serves to make the
recursion structural; callers pass `sizeOf` of the value, which always
dominates the nesting depth, so the fuel-exhausted branch is unreachable. -/
def validateElkNodeF : Nat → JVal → Except String ElkNode
  | 0, _ => .error ("recursion depth exceeded")
  | Nat.succ fuel, .obj fs => do
      let i ← reqStr fs ("id")
      let w ← optNum fs ("width")
      let h ← optNum fs ("height")
      let x ← optNum fs ("x")
      let y ← optNum fs ("y")
      let p ← optProps fs ("properties")
      let l ← optLabels fs ("labels")
      let po ← optPorts fs ("ports")
      let c ← (match lookupField fs ("children") with
        | none => Except.ok none
        | some .null => Except.ok none
        | some (.arr xs) => (xs.mapM (validateElkNodeF fuel)).map some
        | some _ => Except.error ("Input should be a valid list: children"))
      let e ← optEdges fs ("edges")
      .ok (ElkNode.mk i w h x y p l po c e)
  | Nat.succ _, _ => .error ("Input should be a valid dictionary: ElkNode")

/-- `ElkGraph(**graph)` validation, as performed inside compute_layout. -/
def validateElkGraph (j : JVal) : Except String ElkGraph :=
  match j with
  | .obj fs => do
      let i ← reqStr fs ("id")
      let p ← optProps fs ("properties")
      let c ← (match lookupField fs ("children") with
        | none => Except.ok none
        | some .null => Except.ok none
        | some (.arr xs) => (xs.mapM (fun x => validateElkNodeF (jsize x) x)).map some
        | some _ => Except.error ("Input should be a valid list: children"))
      let e ← optEdges fs ("edges")
      .ok ⟨i, p, c, e⟩
  | _ => .error ("Input should be a valid dictionary: ElkGraph")

/- ----------------------------------------------------------------
  Serialization.  Modelled from the spec: pydantic's
  `model_dump_json(exclude_none=True)` is library code not under src/;
  it is modelled here from the field declarations in src/elk/types.py —
  compact one-line JSON, keys in declaration order, fields whose value is
  None omitted (recursively), strings escaped as in JSON.  Numeric payloads
  are modelled as integers.
---------------------------------------------------------------- -/

/-- Decimal digit character (argument is always < 10 at call sites). -/
def digitChr : Nat → Char
  | 0 => '0' | 1 => '1' | 2 => '2' | 3 => '3' | 4 => '4'
  | 5 => '5' | 6 => '6' | 7 => '7' | 8 => '8' | _ => '9'

/-- Little-endian decimal digits of a natural number; the fuel argument only
makes the recursion structural and `n + 1` always suffices. -/
def natDigitsRevF : Nat → Nat → List Char
  | 0, _ => []
  | Nat.succ fuel, n =>
      if n < 10 then [digitChr n]
      else digitChr (n % 10) :: natDigitsRevF fuel (n / 10)

def renderNat (n : Nat) : String := String.mk (natDigitsRevF (n + 1) n).reverse

def renderInt (i : Int) : String :=
  if i < 0 then "-" ++ renderNat i.natAbs else renderNat i.natAbs

/-- Hexadecimal digit character (argument is always < 16 at call sites). -/
def hexDigit : Nat → Char
  | 0 => '0' | 1 => '1' | 2 => '2' | 3 => '3' | 4 => '4' | 5 => '5'
  | 6 => '6' | 7 => '7' | 8 => '8' | 9 => '9' | 10 => 'a' | 11 => 'b'
  | 12 => 'c' | 13 => 'd' | 14 => 'e' | _ => 'f'

/-- JSON escaping of one character. -/
def escapeChar (c : Char) : List Char :=
  if c = '"' then ['\\', '"']
  else if c = '\\' then ['\\', '\\']
  else if c = '\n' then ['\\', 'n']
  else if c = '\r' then ['\\', 'r']
  else if c = '\t' then ['\\', 't']
  else if c.toNat < 32 then
    ['\\', 'u', '0', '0', hexDigit (c.toNat / 16), hexDigit (c.toNat % 16)]
  else [c]

def jsonEscape (s : String) : String := String.mk (s.data.flatMap escapeChar)

/-- A JSON string literal: quoted and escaped. -/
def jsonStr (s : String) : String := "\"" ++ jsonEscape s ++ "\""

def commaJoin : List String → String
  | [] => ""
  | [s] => s
  | s :: rest => s ++ "," ++ commaJoin rest

def renderArr (items : List String) : String := "[" ++ commaJoin items ++ "]"

def renderObj (fields : List (String × String)) : String :=
  "\x7b" ++ commaJoin (fields.map (fun kv => jsonStr kv.1 ++ ":" ++ kv.2)) ++ "\x7d"

/-- An optional numeric field: omitted when None (exclude_none). -/
def numField (k : String) (v : Option Int) : List (String × String) :=
  match v with
  | none => []
  | some n => [(k, renderInt n)]

def propsFields (p : ElkProperties) : List (String × String) :=
  match p.algorithm with
  | none => []
  | some a => [(("algorithm"), jsonStr a)]

def dumpElkProperties (p : ElkProperties) : String := renderObj (propsFields p)

def dumpElkLabel (l : ElkLabel) : String :=
  renderObj ([(("text"), jsonStr l.text)]
    ++ numField ("width") l.width ++ numField ("height") l.height
    ++ numField ("x") l.x ++ numField ("y") l.y)

def dumpElkPort (p : ElkPort) : String :=
  renderObj ([(("id"), jsonStr p.id)]
    ++ numField ("width") p.width ++ numField ("height") p.height
    ++ numField ("x") p.x ++ numField ("y") p.y
    ++ (match p.properties with
        | none => []
        | some pr => [(("properties"), dumpElkProperties pr)]))

def dumpElkEdge (e : ElkEdge) : String :=
  renderObj ([(("id"), jsonStr e.id),
    (("sources"), renderArr (e.sources.map jsonStr)),
    (("targets"), renderArr (e.targets.map jsonStr))]
    ++ (match e.properties with
        | none => []
        | some pr => [(("properties"), dumpElkProperties pr)])
    ++ (match e.labels with
        | none => []
        | some ls => [(("labels"), renderArr (ls.map dumpElkLabel))]))

/-- Serialization of one node.  The fuel argument only serves to make the
recursion structural; callers pass `nsize` of the node, which always
dominates the nesting depth, so the fuel-exhausted branch is unreachable. -/
def dumpElkNodeF : Nat → ElkNode → String
  | 0, _ => ""
  | Nat.succ fuel, .mk i w h x y p l po c e =>
      renderObj ([(("id"), jsonStr i)]
        ++ numField ("width") w ++ numField ("height") h
        ++ numField ("x") x ++ numField ("y") y
        ++ (match p with
            | none => []
            | some pr => [(("properties"), dumpElkProperties pr)])
        ++ (match l with
            | none => []
            | some ls => [(("labels"), renderArr (ls.map dumpElkLabel))])
        ++ (match po with
            | none => []
            | some ps => [(("ports"), renderArr (ps.map dumpElkPort))])
        ++ (match c with
            | none => []
            | some cs => [(("children"), renderArr (cs.map (dumpElkNodeF fuel)))])
        ++ (match e with
            | none => []
            | some es => [(("edges"), renderArr (es.map dumpElkEdge))]))

/-- Serialize a node with enough fuel for its whole subtree. -/
def dumpElkNode (n : ElkNode) : String := dumpElkNodeF (nsize n) n

/-- The top-level key/value pairs of the serialized graph, in the field
order declared in types.py, with None fields omitted. -/
def graphFields (g : ElkGraph) : List (String × String) :=
  [(("id"), jsonStr g.id)]
  ++ (match g.properties with
      | none => []
      | some pr => [(("properties"), dumpElkProperties pr)])
  ++ (match g.children with
      | none => []
      | some cs => [(("children"), renderArr (cs.map dumpElkNode))])
  ++ (match g.edges with
      | none => []
      | some es => [(("edges"), renderArr (es.map dumpElkEdge))])

/-- `validated_graph.model_dump_json(exclude_none=True)` from compute_layout. -/
def model_dump_json (g : ElkGraph) : String := renderObj (graphFields g)

/- ----------------------------------------------------------------
  Parsing.  Modelled from the spec: Python's `json.loads` (stdlib, not
  under src/) — "Parse the output line as JSON. A parse failure is a
  MalformedResponseError".  Numbers are modelled as integers: fractional
  and exponent parts are accepted and discarded.
---------------------------------------------------------------- -/

def lbrace : Char := Char.ofNat 123

def rbrace : Char := Char.ofNat 125

def skipWs : List Char → List Char
  | [] => []
  | c :: rest =>
      if c = ' ' ∨ c = '\t' ∨ c = '\n' ∨ c = '\r' then skipWs rest else c :: rest

def hexVal (c : Char) : Option Nat :=
  let n := c.toNat
  if 48 ≤ n ∧ n ≤ 57 then some (n - 48)
  else if 97 ≤ n ∧ n ≤ 102 then some (n - 87)
  else if 65 ≤ n ∧ n ≤ 70 then some (n - 55)
  else none

/-- Characters of a JSON string body (after the opening quote), with escape
decoding; returns the body and the remaining input after the closing quote.
The fuel argument only makes the recursion structural. -/
def parseStrChars : Nat → List Char → Option (List Char × List Char)
  | 0, _ => none
  | Nat.succ fuel, cs =>
      match cs with
      | [] => none
      | c :: rest =>
          if c = '"' then some ([], rest)
          else if c = '\\' then
            match rest with
            | [] => none
            | e :: rest2 =>
                if e = 'u' then
                  match rest2 with
                  | a :: b :: c2 :: d :: rest3 =>
                      (match hexVal a, hexVal b, hexVal c2, hexVal d with
                      | some ha, some hb, some hc, some hd =>
                          (parseStrChars fuel rest3).map (fun p =>
                            (Char.ofNat (((ha * 16 + hb) * 16 + hc) * 16 + hd) :: p.1, p.2))
                      | _, _, _, _ => none)
                  | _ => none
                else
                  let dec : Option Char :=
                    if e = '"' then some '"' else if e = '\\' then some '\\'
                    else if e = '/' then some '/' else if e = 'n' then some '\n'
                    else if e = 't' then some '\t' else if e = 'r' then some '\r'
                    else if e = 'b' then some (Char.ofNat 8)
                    else if e = 'f' then some (Char.ofNat 12)
                    else none
                  match dec with
                  | none => none
                  | some dc => (parseStrChars fuel rest2).map (fun p => (dc :: p.1, p.2))
          else (parseStrChars fuel rest).map (fun p => (c :: p.1, p.2))

def digitsToNat (ds : List Char) : Nat :=
  ds.foldl (fun acc c => acc * 10 + (c.toNat - 48)) 0

/-- Exponent part of a JSON number (value discarded). -/
def expTail (r : List Char) : List Char :=
  let r2 := match r with
    | '+' :: r2 => r2
    | '-' :: r2 => r2
    | _ => r
  if (r2.takeWhile (fun c => c.isDigit)) = ([] : List Char) then []
  else r2.dropWhile (fun c => c.isDigit)

def parseNum (cs : List Char) : Option (JVal × List Char) :=
  let p := (match cs with
    | '-' :: rest => (true, rest)
    | _ => (false, cs))
  let ds := p.2.takeWhile (fun c => c.isDigit)
  let rest1 := p.2.dropWhile (fun c => c.isDigit)
  if ds = ([] : List Char) then none
  else
    let n : Int := Int.ofNat (digitsToNat ds)
    let rest2 := (match rest1 with
      | '.' :: r =>
          if (r.takeWhile (fun c => c.isDigit)) = ([] : List Char) then rest1
          else r.dropWhile (fun c => c.isDigit)
      | _ => rest1)
    let rest3 := (match rest2 with
      | 'e' :: r => expTail r
      | 'E' :: r => expTail r
      | _ => rest2)
    some (.num (if p.1 then -n else n), rest3)

mutual

def parseValF : Nat → List Char → Option (JVal × List Char)
  | 0, _ => none
  | Nat.succ fuel, cs =>
      match skipWs cs with
      | [] => none
      | c :: rest =>
          if c = '"' then
            (parseStrChars (rest.length + 1) rest).map (fun p => (.str (String.mk p.1), p.2))
          else if c = 't' then
            if rest.take 3 = ['r', 'u', 'e'] then some (.bool true, rest.drop 3) else none
          else if c = 'f' then
            if rest.take 4 = ['a', 'l', 's', 'e'] then some (.bool false, rest.drop 4) else none
          else if c = 'n' then
            if rest.take 3 = ['u', 'l', 'l'] then some (.null, rest.drop 3) else none
          else if c = '[' then
            match skipWs rest with
            | ']' :: r2 => some (.arr [], r2)
            | _ => (parseArrItemsF fuel rest).map (fun p => (.arr p.1, p.2))
          else if c = lbrace then
            match skipWs rest with
            | r :: r2 => if r = rbrace then some (.obj [], r2)
                else (parseObjItemsF fuel rest).map (fun p => (.obj p.1, p.2))
            | [] => none
          else parseNum (c :: rest)

def parseArrItemsF : Nat → List Char → Option (List JVal × List Char)
  | 0, _ => none
  | Nat.succ fuel, cs =>
      (parseValF fuel cs).bind (fun p =>
        match skipWs p.2 with
        | ',' :: rest => (parseArrItemsF fuel rest).map (fun q => (p.1 :: q.1, q.2))
        | ']' :: rest => some ([p.1], rest)
        | _ => none)

def parseObjItemsF : Nat → List Char → Option (List (String × JVal) × List Char)
  | 0, _ => none
  | Nat.succ fuel, cs =>
      match skipWs cs with
      | '"' :: rest =>
          (parseStrChars (rest.length + 1) rest).bind (fun kp =>
            match skipWs kp.2 with
            | ':' :: rest2 =>
                (parseValF fuel rest2).bind (fun p =>
                  match skipWs p.2 with
                  | ',' :: rest3 =>
                      (parseObjItemsF fuel rest3).map (fun q =>
                        ((String.mk kp.1, p.1) :: q.1, q.2))
                  | c :: rest3 =>
                      if c = rbrace then some ([(String.mk kp.1, p.1)], rest3) else none
                  | [] => none)
            | _ => none)
      | _ => none

end

/-- `json.loads(response)` from compute_layout. -/
def json_loads (s : String) : Except String JVal :=
  match parseValF (s.data.length + 2) s.data with
  | some (v, rest) => if skipWs rest = [] then .ok v else .error ("Extra data")
  | none => .error ("Expecting value")

/- ----------------------------------------------------------------
  src/elk/server.py — process supervision and the exchange protocol.
  The module-global `_server_process` is passed as explicit state
  (`Option Proc`); the outcomes of external effects (poll, launch,
  stream reads/writes) are supplied by environment records, and the
  stream operations a call performs are recorded as an event trace.
---------------------------------------------------------------- -/

/-- A subprocess handle (`subprocess.Popen`): its identity and whether each
of the three standard streams was opened (`is None` checks). -/
structure Proc where
  pid : Nat
  stdinOk : Bool
  stdoutOk : Bool
  stderrOk : Bool
deriving DecidableEq

/-- The arguments of a `subprocess.Popen` call made by
_ensure_server_process: argv plus the capture/buffering options. -/
structure LaunchCmd where
  argv : List String
  stdinPipe : Bool
  stdoutPipe : Bool
  stderrPipe : Bool
  textMode : Bool
  bufsize : Nat
deriving DecidableEq

/-- External outcomes consumed by one _ensure_server_process call:
the result of `_server_process.poll()` on the existing handle (used only if
one exists; `some code` means terminated), the result of `ensure_server()`
(`.error` models its RuntimeError), and the process Popen would produce. -/
structure EnsureEnv where
  pollRes : Option Int
  scriptRes : Except String String
  freshPid : Nat
  freshStdinOk : Bool
  freshStdoutOk : Bool
  freshStderrOk : Bool

/-- The launch path of _ensure_server_process (lines 33-51 of server.py):
resolve the script, start `[script, "--stdio"]` with all three streams
piped, then raise if any pipe is missing.  Returns the new global state,
the Popen call made (if any), and the returned handle or the error. -/
def launch_new (st : Option Proc) (env : EnsureEnv) :
    Option Proc × Option LaunchCmd × Except String Proc :=
  match env.scriptRes with
  | .error e => (st, none, .error e)
  | .ok script =>
      let fresh : Proc := ⟨env.freshPid, env.freshStdinOk, env.freshStdoutOk, env.freshStderrOk⟩
      let cmd : LaunchCmd := ⟨[script, "--stdio"], true, true, true, true, 1⟩
      if fresh.stdinOk && fresh.stdoutOk && fresh.stderrOk then
        (some fresh, some cmd, .ok fresh)
      else
        (some fresh, some cmd, .error ("Failed to open subprocess pipes"))

/-- `_ensure_server_process`: create a new process iff the global handle is
None or the existing process's liveness poll reports termination; otherwise
return the existing handle unchanged. -/
def ensure_server_process (st : Option Proc) (env : EnsureEnv) :
    Option Proc × Option LaunchCmd × Except String Proc :=
  match st with
  | none => launch_new st env
  | some p =>
      if env.pollRes.isSome then launch_new st env
      else (some p, none, .ok p)

/-- Observable operations on the process's streams during one exchange. -/
inductive Event where
  | write (s : String)
  | flush
  | readOutLine (res : String)
  | readErrAll (res : String)
  | readErrLine (res : String)
deriving DecidableEq

/-- External outcomes consumed by one compute_layout exchange.  For the
write and flush, `some msg` models an OSError raised by the operation; for
the reads, `.error msg` models an OSError and `.ok s` the data read
(`""` = end of stream). -/
structure ExchangeEnv where
  ensure : EnsureEnv
  writeRes : Option String
  flushRes : Option String
  outRes : Except String String
  errAllRes : Except String String
  errLineRes : Except String String

/-- The outcome of a compute_layout call, classifying each exception the
source can raise (all RuntimeError messages are kept verbatim). -/
inductive LayoutResult where
  | ok (v : JVal)
  | launchError (msg : String)
  | invalidPipes
  | validationError (msg : String)
  | engineFailure (msg : String)
  | engineError (msg : String)
  | connectionFailure (msg : String)
  | parseError (msg : String)

/-- Python whitespace as stripped by `str.strip()`. -/
def isPyWs (c : Char) : Bool :=
  c = ' ' ∨ c = '\t' ∨ c = '\n' ∨ c = '\r' ∨ c = Char.ofNat 11 ∨ c = Char.ofNat 12

/-- Python `str.strip()`: drop whitespace from both ends. -/
def pyStrip (s : String) : String :=
  String.mk (((s.data.dropWhile isPyWs).reverse.dropWhile isPyWs).reverse)

/-- Python `str.endswith(suffix)`. -/
def pyEndsWith (s suffix : String) : Bool :=
  suffix.data.isSuffixOf s.data

/-- The fixed benign end-of-stream diagnostic recognized at line 217. -/
def benignTrailer : String := "End of input at line 2 column 1 path $"

/-- Final step of compute_layout: `json.loads(response)` (line 221);
a JSONDecodeError is not an OSError, so the state is kept. -/
def finishParse (st1 : Option Proc) (tr : List Event) (response : String) :
    Option Proc × List Event × LayoutResult :=
  match json_loads response with
  | .ok v => (st1, tr, .ok v)
  | .error m => (st1, tr, .parseError m)

/-- `compute_layout` (server.py lines 171-227): ensure a process, check its
pipes, validate the graph, write one serialized line and flush, read one
output line, handle the error stream, parse.  Any OSError inside the try
block clears the global handle and becomes a connection failure. -/
def compute_layout (st : Option Proc) (graph : JVal) (env : ExchangeEnv) :
    Option Proc × List Event × LayoutResult :=
  match ensure_server_process st env.ensure with
  | (st1, _, .error e) => (st1, [], .launchError e)
  | (st1, _, .ok proc) =>
      if !(proc.stdinOk && proc.stdoutOk && proc.stderrOk) then
        (st1, [], .invalidPipes)
      else
        match validateElkGraph graph with
        | .error e => (st1, [], .validationError e)
        | .ok vg =>
            let json_str := model_dump_json vg
            match env.writeRes with
            | some m => (none, [], .connectionFailure ("ELK server connection failed: " ++ m))
            | none =>
                let tr0 := [Event.write (json_str ++ "\n")]
                match env.flushRes with
                | some m => (none, tr0, .connectionFailure ("ELK server connection failed: " ++ m))
                | none =>
                    let tr1 := tr0 ++ [Event.flush]
                    match env.outRes with
                    | .error m => (none, tr1, .connectionFailure ("ELK server connection failed: " ++ m))
                    | .ok response =>
                        let tr2 := tr1 ++ [Event.readOutLine response]
                        if response = "" then
                          match env.errAllRes with
                          | .error m => (none, tr2, .connectionFailure ("ELK server connection failed: " ++ m))
                          | .ok err =>
                              (st1, tr2 ++ [Event.readErrAll err],
                                .engineFailure ("ELK server failed: " ++ err))
                        else
                          match env.errLineRes with
                          | .error m => (none, tr2, .connectionFailure ("ELK server connection failed: " ++ m))
                          | .ok errLine =>
                              let tr3 := tr2 ++ [Event.readErrLine errLine]
                              if errLine ≠ "" then
                                let stripped := pyStrip errLine
                                if !(pyEndsWith stripped benignTrailer) then
                                  (st1, tr3, .engineError ("ELK server error: " ++ stripped))
                                else finishParse st1 tr3 response
                              else finishParse st1 tr3 response

/-- Observable operations of a shutdown_server call. -/
inductive SEvent where
  | closeStdin
  | terminate
  | wait
deriving DecidableEq

/-- External outcomes consumed by shutdown_server: `some msg` models an
exception raised by stdin.close(), terminate(), or wait(timeout=1). -/
structure ShutdownEnv where
  closeRes : Option String
  termRes : Option String
  waitRes : Option String

/-- Steps of shutdown_server after the close attempt. -/
def shutdown_tail (tr : List SEvent) (env : ShutdownEnv) :
    Option Proc × List SEvent × Option String :=
  match env.termRes with
  | some m => (none, tr, some ("Error shutting down server: " ++ m))
  | none =>
      let tr2 := tr ++ [SEvent.terminate]
      match env.waitRes with
      | some m => (none, tr2, some ("Error shutting down server: " ++ m))
      | none => (none, tr2 ++ [SEvent.wait], none)

/-- `shutdown_server` (server.py lines 230-242): if a handle exists, close
stdin (when open), terminate, wait; every exception is logged and swallowed
(third component), and the finally block always clears the handle. -/
def shutdown_server (st : Option Proc) (env : ShutdownEnv) :
    Option Proc × List SEvent × Option String :=
  match st with
  | none => (none, [], none)
  | some p =>
      if p.stdinOk then
        match env.closeRes with
        | some m => (none, [], some ("Error shutting down server: " ++ m))
        | none => shutdown_tail [SEvent.closeStdin] env
      else shutdown_tail [] env

/- ----------------------------------------------------------------
  src/elk/java_utils.py — find_java.  Filesystem, environment, and the
  `java -version` probe are supplied by an environment record.
---------------------------------------------------------------- -/

def JAVA_MIN_VERSION : Int := 17

def JAVA_MAX_VERSION : Int := 23

/-- External facts consumed by find_java: the JAVA_HOME variable, the
platform, which paths are files, the major version `get_java_version`
reports per executable (`.error` models its RuntimeError), and what
`shutil.which("java")` returns. -/
structure JavaEnv where
  javaHome : Option String
  isWindows : Bool
  isFile : String → Bool
  versionOf : String → Except String Int
  whichJava : Option String

/-- `os.path.join(java_home, "bin", java_exe)`, modelled with the
platform's separator and no special-casing of trailing separators. -/
def javaHomePath (env : JavaEnv) (home : String) : String :=
  let sep := if env.isWindows then "\\" else "/"
  let exe := if env.isWindows then "java.exe" else "java"
  home ++ sep ++ "bin" ++ sep ++ exe

/-- The final RuntimeError message of find_java. -/
def noJavaMsg : String :=
  "No Java " ++ renderInt JAVA_MIN_VERSION ++ "-" ++ renderInt JAVA_MAX_VERSION
    ++ " installation found. Please install Java or set JAVA_HOME."

/-- The JAVA_HOME branch of find_java (lines 63-74): `some (.ok p)` returns
p, `some (.error m)` raises, `none` falls through to the PATH branch. -/
def findJavaFromHome (env : JavaEnv) : Option (Except String String) :=
  match env.javaHome with
  | none => none
  | some home =>
      if home = "" then none
      else
        let p := javaHomePath env home
        if env.isFile p then
          match env.versionOf p with
          | .ok v =>
              if JAVA_MIN_VERSION ≤ v ∧ v ≤ JAVA_MAX_VERSION then some (.ok p) else none
          | .error _ => some (.error ("Failed to check Java version in JAVA_HOME"))
        else none

/-- The PATH branch of find_java (lines 77-84). -/
def findJavaFromPath (env : JavaEnv) : Option (Except String String) :=
  match env.whichJava with
  | none => none
  | some cmd =>
      if cmd = "" then none
      else
        match env.versionOf cmd with
        | .ok v =>
            if JAVA_MIN_VERSION ≤ v ∧ v ≤ JAVA_MAX_VERSION then some (.ok cmd) else none
        | .error _ => some (.error ("Failed to check Java version in PATH"))

/-- `find_java` (java_utils.py lines 53-89): try JAVA_HOME, then PATH, else
raise the not-found RuntimeError. -/
def find_java (env : JavaEnv) : Except String String :=
  match findJavaFromHome env with
  | some r => r
  | none =>
      match findJavaFromPath env with
      | some r => r
      | none => .error noJavaMsg

/- ----------------------------------------------------------------
  The serialized request is a single line: no raw newline can occur in
  the output of model_dump_json.
---------------------------------------------------------------- -/

/-- A string contains no raw newline character. -/
abbrev noNL (s : String) : Prop := ∀ c ∈ s.data, c ≠ '\n'

theorem noNL_append {a b : String} (ha : noNL a) (hb : noNL b) : noNL (a ++ b) := by
  intro c hc
  rw [show (a ++ b).data = a.data ++ b.data from rfl] at hc
  rcases List.mem_append.mp hc with h | h
  · exact ha c h
  · exact hb c h

theorem digitChr_ne : ∀ d : Nat, digitChr d ≠ '\n'
  | 0 | 1 | 2 | 3 | 4 | 5 | 6 | 7 | 8 => by decide
  | (_ + 9) => by show ('9' : Char) ≠ '\n'; decide

theorem hexDigit_ne : ∀ d : Nat, hexDigit d ≠ '\n'
  | 0 | 1 | 2 | 3 | 4 | 5 | 6 | 7 | 8 | 9 | 10 | 11 | 12 | 13 | 14 => by decide
  | (_ + 15) => by show ('f' : Char) ≠ '\n'; decide

theorem natDigitsRevF_ne (fuel : Nat) :
    ∀ n c, c ∈ natDigitsRevF fuel n → c ≠ '\n' := by
  induction fuel with
  | zero => intro n c hc; exact absurd hc (by simp [natDigitsRevF])
  | succ fuel ih =>
      intro n c hc
      unfold natDigitsRevF at hc
      split at hc
      · rcases List.mem_singleton.mp hc with rfl
        exact digitChr_ne n
      · rcases List.mem_cons.mp hc with h | h
        · rcases h with rfl
          exact digitChr_ne (n % 10)
        · exact ih (n / 10) c h

theorem noNL_renderNat (n : Nat) : noNL (renderNat n) := by
  intro c hc
  have hc2 : c ∈ (natDigitsRevF (n + 1) n).reverse := hc
  exact natDigitsRevF_ne (n + 1) n c (List.mem_reverse.mp hc2)

theorem noNL_renderInt (i : Int) : noNL (renderInt i) := by
  unfold renderInt
  split
  · exact noNL_append (by decide) (noNL_renderNat i.natAbs)
  · exact noNL_renderNat i.natAbs

theorem escapeChar_ne (c x : Char) (hx : x ∈ escapeChar c) : x ≠ '\n' := by
  unfold escapeChar at hx
  split at hx
  · rcases List.mem_cons.mp hx with rfl | h
    · decide
    · rcases List.mem_singleton.mp h with rfl; decide
  · split at hx
    · rcases List.mem_cons.mp hx with rfl | h
      · decide
      · rcases List.mem_singleton.mp h with rfl; decide
    · split at hx
      · rcases List.mem_cons.mp hx with rfl | h
        · decide
        · rcases List.mem_singleton.mp h with rfl; decide
      · split at hx
        · rcases List.mem_cons.mp hx with rfl | h
          · decide
          · rcases List.mem_singleton.mp h with rfl; decide
        · split at hx
          · rcases List.mem_cons.mp hx with rfl | h
            · decide
            · rcases List.mem_singleton.mp h with rfl; decide
          · split at hx
            · simp only [List.mem_cons, List.not_mem_nil, or_false] at hx
              rcases hx with rfl | rfl | rfl | rfl | rfl | rfl
              · decide
              · decide
              · decide
              · decide
              · exact hexDigit_ne _
              · exact hexDigit_ne _
            · rename_i h1 h2 h3 h4 h5 h6
              rcases List.mem_singleton.mp hx with rfl
              exact fun he => h3 he

theorem noNL_jsonEscape (s : String) : noNL (jsonEscape s) := by
  intro c hc
  have hc2 : c ∈ s.data.flatMap escapeChar := hc
  rcases List.mem_flatMap.mp hc2 with ⟨a, _, ha⟩
  exact escapeChar_ne a c ha

theorem noNL_jsonStr (s : String) : noNL (jsonStr s) :=
  noNL_append (noNL_append (by decide) (noNL_jsonEscape s)) (by decide)

theorem noNL_commaJoin : ∀ l : List String, (∀ s ∈ l, noNL s) → noNL (commaJoin l)
  | [], _ => by intro c hc; exact absurd hc (by simp [commaJoin])
  | [s], h => by
      have := h s (by simp)
      simpa [commaJoin] using this
  | s :: t :: rest, h => by
      rw [show commaJoin (s :: t :: rest) = s ++ "," ++ commaJoin (t :: rest) from rfl]
      exact noNL_append (noNL_append (h s (by simp)) (by decide))
        (noNL_commaJoin (t :: rest) (fun u hu => h u (List.mem_cons_of_mem s hu)))

theorem noNL_renderArr {items : List String} (h : ∀ s ∈ items, noNL s) :
    noNL (renderArr items) :=
  noNL_append (noNL_append (by decide) (noNL_commaJoin items h)) (by decide)

theorem noNL_renderObj {fields : List (String × String)}
    (h : ∀ kv ∈ fields, noNL kv.2) : noNL (renderObj fields) := by
  refine noNL_append (noNL_append (by decide) (noNL_commaJoin _ ?_)) (by decide)
  intro s hs
  rcases List.mem_map.mp hs with ⟨kv, hkv, rfl⟩
  exact noNL_append (noNL_append (noNL_jsonStr kv.1) (by decide)) (h kv hkv)

theorem numField_val {k : String} {v : Option Int} :
    ∀ kv ∈ numField k v, noNL kv.2 := by
  cases v with
  | none => intro kv hkv; exact absurd hkv (by simp [numField])
  | some n =>
      intro kv hkv
      rcases List.mem_singleton.mp hkv with rfl
      exact noNL_renderInt n

theorem vals_append {l1 l2 : List (String × String)}
    (h1 : ∀ kv ∈ l1, noNL kv.2) (h2 : ∀ kv ∈ l2, noNL kv.2) :
    ∀ kv ∈ l1 ++ l2, noNL kv.2 := by
  intro kv hkv
  rcases List.mem_append.mp hkv with h | h
  · exact h1 kv h
  · exact h2 kv h

theorem noNL_dumpElkProperties (p : ElkProperties) : noNL (dumpElkProperties p) := by
  unfold dumpElkProperties
  apply noNL_renderObj
  unfold propsFields
  cases p.algorithm with
  | none => intro kv hkv; exact absurd hkv (by simp)
  | some a =>
      intro kv hkv
      rcases List.mem_singleton.mp hkv with rfl
      exact noNL_jsonStr a

theorem noNL_dumpElkLabel (l : ElkLabel) : noNL (dumpElkLabel l) := by
  unfold dumpElkLabel
  apply noNL_renderObj
  refine vals_append (vals_append (vals_append (vals_append ?_ numField_val) numField_val)
    numField_val) numField_val
  intro kv hkv
  rcases List.mem_singleton.mp hkv with rfl
  exact noNL_jsonStr l.text

theorem noNL_dumpElkPort (p : ElkPort) : noNL (dumpElkPort p) := by
  unfold dumpElkPort
  apply noNL_renderObj
  refine vals_append (vals_append (vals_append (vals_append (vals_append ?_ numField_val)
    numField_val) numField_val) numField_val) ?_
  · intro kv hkv
    rcases List.mem_singleton.mp hkv with rfl
    exact noNL_jsonStr p.id
  · cases p.properties with
    | none => intro kv hkv; exact absurd hkv (by simp)
    | some pr =>
        intro kv hkv
        rcases List.mem_singleton.mp hkv with rfl
        exact noNL_dumpElkProperties pr

theorem noNL_dumpElkEdge (e : ElkEdge) : noNL (dumpElkEdge e) := by
  unfold dumpElkEdge
  apply noNL_renderObj
  refine vals_append (vals_append ?_ ?_) ?_
  · intro kv hkv
    simp only [List.mem_cons, List.not_mem_nil, or_false] at hkv
    rcases hkv with rfl | rfl | rfl
    · exact noNL_jsonStr e.id
    · exact noNL_renderArr (fun s hs => by
        rcases List.mem_map.mp hs with ⟨a, _, rfl⟩
        exact noNL_jsonStr a)
    · exact noNL_renderArr (fun s hs => by
        rcases List.mem_map.mp hs with ⟨a, _, rfl⟩
        exact noNL_jsonStr a)
  · cases e.properties with
    | none => intro kv hkv; exact absurd hkv (by simp)
    | some pr =>
        intro kv hkv
        rcases List.mem_singleton.mp hkv with rfl
        exact noNL_dumpElkProperties pr
  · cases e.labels with
    | none => intro kv hkv; exact absurd hkv (by simp)
    | some ls =>
        intro kv hkv
        rcases List.mem_singleton.mp hkv with rfl
        exact noNL_renderArr (fun s hs => by
          rcases List.mem_map.mp hs with ⟨a, _, rfl⟩
          exact noNL_dumpElkLabel a)

theorem noNL_dumpElkNodeF : ∀ (fuel : Nat) (n : ElkNode), noNL (dumpElkNodeF fuel n) := by
  intro fuel
  induction fuel with
  | zero => intro n c hc; exact absurd hc (by simp [dumpElkNodeF])
  | succ fuel ih =>
      intro n
      cases n with
      | mk i w h x y p l po c e =>
          simp only [dumpElkNodeF]
          apply noNL_renderObj
          refine vals_append (vals_append (vals_append (vals_append (vals_append (vals_append
            (vals_append (vals_append (vals_append ?_ numField_val) numField_val) numField_val)
            numField_val) ?_) ?_) ?_) ?_) ?_
          · intro kv hkv
            rcases List.mem_singleton.mp hkv with rfl
            exact noNL_jsonStr i
          · cases p with
            | none => intro kv hkv; exact absurd hkv (by simp)
            | some pr =>
                intro kv hkv
                rcases List.mem_singleton.mp hkv with rfl
                exact noNL_dumpElkProperties pr
          · cases l with
            | none => intro kv hkv; exact absurd hkv (by simp)
            | some ls =>
                intro kv hkv
                rcases List.mem_singleton.mp hkv with rfl
                exact noNL_renderArr (fun s hs => by
                  rcases List.mem_map.mp hs with ⟨a, _, rfl⟩
                  exact noNL_dumpElkLabel a)
          · cases po with
            | none => intro kv hkv; exact absurd hkv (by simp)
            | some ps =>
                intro kv hkv
                rcases List.mem_singleton.mp hkv with rfl
                exact noNL_renderArr (fun s hs => by
                  rcases List.mem_map.mp hs with ⟨a, _, rfl⟩
                  exact noNL_dumpElkPort a)
          · cases c with
            | none => intro kv hkv; exact absurd hkv (by simp)
            | some cs =>
                intro kv hkv
                rcases List.mem_singleton.mp hkv with rfl
                exact noNL_renderArr (fun s hs => by
                  rcases List.mem_map.mp hs with ⟨a, _, rfl⟩
                  exact ih a)
          · cases e with
            | none => intro kv hkv; exact absurd hkv (by simp)
            | some es =>
                intro kv hkv
                rcases List.mem_singleton.mp hkv with rfl
                exact noNL_renderArr (fun s hs => by
                  rcases List.mem_map.mp hs with ⟨a, _, rfl⟩
                  exact noNL_dumpElkEdge a)

theorem noNL_dumpElkNode (n : ElkNode) : noNL (dumpElkNode n) :=
  noNL_dumpElkNodeF (nsize n) n

theorem noNL_model_dump_json (g : ElkGraph) : noNL (model_dump_json g) := by
  unfold model_dump_json
  apply noNL_renderObj
  unfold graphFields
  refine vals_append (vals_append (vals_append ?_ ?_) ?_) ?_
  · intro kv hkv
    rcases List.mem_singleton.mp hkv with rfl
    exact noNL_jsonStr g.id
  · cases g.properties with
    | none => intro kv hkv; exact absurd hkv (by simp)
    | some pr =>
        intro kv hkv
        rcases List.mem_singleton.mp hkv with rfl
        exact noNL_dumpElkProperties pr
  · cases g.children with
    | none => intro kv hkv; exact absurd hkv (by simp)
    | some cs =>
        intro kv hkv
        rcases List.mem_singleton.mp hkv with rfl
        exact noNL_renderArr (fun s hs => by
          rcases List.mem_map.mp hs with ⟨a, _, rfl⟩
          exact noNL_dumpElkNode a)
  · cases g.edges with
    | none => intro kv hkv; exact absurd hkv (by simp)
    | some es =>
        intro kv hkv
        rcases List.mem_singleton.mp hkv with rfl
        exact noNL_renderArr (fun s hs => by
          rcases List.mem_map.mp hs with ⟨a, _, rfl⟩
          exact noNL_dumpElkEdge a)

/-- Number of request lines written to the engine's input stream. -/
def countWrites (tr : List Event) : Nat :=
  (tr.filter (fun e => match e with | .write _ => true | _ => false)).length

/- ----------------------------------------------------------------
  Claim theorems.
---------------------------------------------------------------- -/

/-- C5: for every state of the global process handle (absent, alive,
already terminated, or crashed) and every outcome of the close/terminate/
wait steps, shutdown_server completes without raising (it is total and
every failure is only logged), leaves the global handle None, a repeated
call is a no-op that also cannot fail, and calling it without any prior
exchange (handle None) does nothing. -/
theorem C5_shutdown_safe (st : Option Proc) (env : ShutdownEnv) :
    (shutdown_server st env).1 = none ∧
    (∀ env2 : ShutdownEnv, shutdown_server (shutdown_server st env).1 env2 = (none, [], none)) ∧
    shutdown_server none env = (none, [], none) := by
  have h1 : ∀ (s : Option Proc) (e : ShutdownEnv), (shutdown_server s e).1 = none := by
    intro s e
    cases s with
    | none => rfl
    | some p =>
        cases hp : p.stdinOk <;> cases hc : e.closeRes <;> cases ht : e.termRes <;>
          cases hw : e.waitRes <;>
          simp [shutdown_server, shutdown_tail, hp, hc, ht, hw]
  refine ⟨h1 st env, ?_, rfl⟩
  intro env2
  rw [h1 st env]
  rfl

/-- C9: find_java returns a path only when the probed major version of that
path lies in the supported range 17..23; a qualifying JAVA_HOME candidate is
returned in preference to the PATH fallback; and when neither the JAVA_HOME
branch nor the PATH branch produces a result, the call fails with the
not-found RuntimeError message. -/
theorem C9_find_java_spec (env : JavaEnv) :
    (∀ p, find_java env = .ok p →
        ∃ v, env.versionOf p = .ok v ∧ JAVA_MIN_VERSION ≤ v ∧ v ≤ JAVA_MAX_VERSION) ∧
    (∀ home v, env.javaHome = some home → home ≠ "" →
        env.isFile (javaHomePath env home) = true →
        env.versionOf (javaHomePath env home) = .ok v →
        JAVA_MIN_VERSION ≤ v → v ≤ JAVA_MAX_VERSION →
        find_java env = .ok (javaHomePath env home)) ∧
    (findJavaFromHome env = none → findJavaFromPath env = none →
        find_java env = .error noJavaMsg) := by
  refine ⟨?_, ?_, ?_⟩
  · intro p hp
    unfold find_java at hp
    rcases hh : findJavaFromHome env with _ | r
    · rcases hpp : findJavaFromPath env with _ | r2
      · simp only [hh, hpp] at hp
        simp at hp
      · simp only [hh, hpp] at hp
        subst hp
        unfold findJavaFromPath at hpp
        rcases hw : env.whichJava with _ | cmd
        · simp only [hw] at hpp
          simp at hpp
        · simp only [hw] at hpp
          split at hpp
          · simp at hpp
          · rcases hv : env.versionOf cmd with m | v
            · simp only [hv] at hpp
              simp at hpp
            · simp only [hv] at hpp
              split at hpp
              · simp only [Option.some.injEq, Except.ok.injEq] at hpp
                rename_i hrange
                exact ⟨v, by rw [← hpp]; exact hv, hrange.1, hrange.2⟩
              · simp at hpp
    · simp only [hh] at hp
      subst hp
      unfold findJavaFromHome at hh
      rcases hjh : env.javaHome with _ | home
      · simp only [hjh] at hh
        simp at hh
      · simp only [hjh] at hh
        split at hh
        · simp at hh
        · split at hh
          · rcases hv : env.versionOf (javaHomePath env home) with m | v
            · simp only [hv] at hh
              simp at hh
            · simp only [hv] at hh
              split at hh
              · simp only [Option.some.injEq, Except.ok.injEq] at hh
                rename_i hrange
                exact ⟨v, by rw [← hh]; exact hv, hrange.1, hrange.2⟩
              · simp at hh
          · simp at hh
  · intro home v hjh hne hfile hver hlo hhi
    have hh : findJavaFromHome env = some (.ok (javaHomePath env home)) := by
      simp [findJavaFromHome, hjh, hne, hfile, hver, hlo, hhi]
    unfold find_java
    rw [hh]
  · intro hh hpp
    unfold find_java
    rw [hh, hpp]

/-- Witness for C9 at a concrete environment: JAVA_HOME set to a directory
holding a Java 21, nothing on PATH. -/
theorem C9_find_java_spec_witness :
    find_java ⟨some ("/jdk"), false, fun _ => true, fun _ => .ok 21, none⟩ =
      .ok (javaHomePath ⟨some ("/jdk"), false, fun _ => true, fun _ => .ok 21, none⟩ ("/jdk")) :=
  (C9_find_java_spec ⟨some ("/jdk"), false, fun _ => true, fun _ => .ok 21, none⟩).2.1
    ("/jdk") 21 rfl (by decide) rfl rfl (by decide) (by decide)

/-- If _ensure_server_process returns a handle, the global state now holds
exactly that handle. -/
theorem launch_ok_state {st : Option Proc} {env : EnsureEnv} {st1 : Option Proc}
    {c : Option LaunchCmd} {p : Proc}
    (h : launch_new st env = (st1, c, .ok p)) : st1 = some p := by
  unfold launch_new at h
  rcases hs : env.scriptRes with m | script
  · simp only [hs] at h
    simp at h
  · simp only [hs] at h
    split at h
    · simp only [Prod.mk.injEq] at h
      obtain ⟨h1, _, h3⟩ := h
      injection h3 with h3
      rw [← h1, h3]
    · simp at h

/-- If _ensure_server_process returns a handle, the global state now holds
exactly that handle. -/
theorem ensure_ok_state {st : Option Proc} {env : EnsureEnv} {st1 : Option Proc}
    {c : Option LaunchCmd} {p : Proc}
    (h : ensure_server_process st env = (st1, c, .ok p)) : st1 = some p := by
  rcases st with _ | q
  · rw [show ensure_server_process none env = launch_new none env from rfl] at h
    exact launch_ok_state h
  · rw [show ensure_server_process (some q) env =
        (if env.pollRes.isSome then launch_new (some q) env else (some q, none, .ok q))
        from rfl] at h
    split at h
    · exact launch_ok_state h
    · simp only [Prod.mk.injEq] at h
      obtain ⟨h1, _, h3⟩ := h
      injection h3 with h3
      rw [← h1, h3]

/-- A compute_layout call that returned a parsed layout left the global
state holding the very process the exchange used. -/
theorem compute_ok_state {st : Option Proc} {g : JVal} {env : ExchangeEnv}
    {stA : Option Proc} {tr : List Event} {v : JVal}
    (h : compute_layout st g env = (stA, tr, .ok v)) :
    ∃ p c, ensure_server_process st env.ensure = (some p, c, .ok p) ∧ stA = some p := by
  unfold compute_layout finishParse at h
  split at h
  · exact LayoutResult.noConfusion (congrArg (fun t => t.2.2) h)
  · rename_i st1 c proc heq
    have hst1 : st1 = some proc := ensure_ok_state heq
    subst hst1
    refine ⟨proc, c, heq, ?_⟩
    repeat' split at h
    all_goals first
      | (simp only [Prod.mk.injEq] at h
         exact h.1.symm)
      | (simp at h
         done)
      | exact LayoutResult.noConfusion (congrArg (fun t => t.2.2) h)
      | (replace h := congrArg Prod.fst h
         simp [apply_ite] at h
         exact h.symm)

/-- The Popen call recorded by a launch whose ensure_server step succeeded:
argv `[script, "--stdio"]` with all three standard streams captured. -/
theorem launch_cmd {st : Option Proc} {env : EnsureEnv} {script : String}
    (hs : env.scriptRes = .ok script) :
    (launch_new st env).2.1 = some ⟨[script, "--stdio"], true, true, true, true, 1⟩ := by
  unfold launch_new
  simp only [hs]
  split <;> rfl

/-- A live existing handle (poll reports still running) is returned as is:
no launch, no state change. -/
theorem ensure_reuse {p : Proc} {env : EnsureEnv} (h : env.pollRes = none) :
    ensure_server_process (some p) env = (some p, none, .ok p) := by
  rw [show ensure_server_process (some p) env =
      (if env.pollRes.isSome then launch_new (some p) env else (some p, none, .ok p))
      from rfl]
  simp [h]

/-- C1: _ensure_server_process performs the Popen launch (with command
[script, "--stdio"] and the three standard streams captured) iff the global
handle is None or the liveness poll of the existing process reports
termination; with a live existing handle it returns that handle unchanged;
and after a compute_layout call that succeeded, the stored handle is a
process that any later ensure call with a live poll returns unchanged (the
second exchange reuses the same process, no relaunch). -/
theorem C1_process_reuse (st : Option Proc) (env : EnsureEnv) :
    (∀ script, env.scriptRes = .ok script →
        (((ensure_server_process st env).2.1 =
            some ⟨[script, "--stdio"], true, true, true, true, 1⟩)
          ↔ (st = none ∨ env.pollRes.isSome = true))) ∧
    ((ensure_server_process st env).2.1.isSome = true →
        (st = none ∨ env.pollRes.isSome = true)) ∧
    (∀ p, st = some p → env.pollRes = none →
        ensure_server_process st env = (some p, none, .ok p)) ∧
    (∀ (g : JVal) (xenv : ExchangeEnv) stA trA v,
        compute_layout st g xenv = (stA, trA, .ok v) →
        ∃ p, stA = some p ∧ ∀ env2 : EnsureEnv, env2.pollRes = none →
          ensure_server_process stA env2 = (some p, none, .ok p)) := by
  refine ⟨?_, ?_, ?_, ?_⟩
  · intro script hs
    rcases st with _ | q
    · rw [show ensure_server_process none env = launch_new none env from rfl]
      exact iff_of_true (launch_cmd hs) (Or.inl rfl)
    · rw [show ensure_server_process (some q) env =
          (if env.pollRes.isSome then launch_new (some q) env else (some q, none, .ok q))
          from rfl]
      rcases hpo : env.pollRes with _ | code
      · simp only [hpo, Option.isSome_none, Bool.false_eq_true, if_false]
        exact iff_of_false (by simp) (by simp)
      · simp only [hpo, Option.isSome_some, if_true]
        exact iff_of_true (launch_cmd hs) (Or.inr trivial)
  · intro hls
    rcases st with _ | q
    · exact Or.inl rfl
    · rcases hpo : env.pollRes with _ | code
      · exfalso
        rw [show ensure_server_process (some q) env =
            (if env.pollRes.isSome then launch_new (some q) env else (some q, none, .ok q))
            from rfl] at hls
        simp [hpo] at hls
      · exact Or.inr (by simp [hpo])
  · intro p hst hpoll
    subst hst
    exact ensure_reuse hpoll
  · intro g xenv stA trA v h
    rcases compute_ok_state h with ⟨p, c, hens, hstA⟩
    subst hstA
    exact ⟨p, rfl, fun env2 hp2 => ensure_reuse hp2⟩

/-- Witness for C1 at a concrete state: a live existing process is reused
unchanged by _ensure_server_process. -/
theorem C1_process_reuse_witness :
    ensure_server_process (some ⟨1, true, true, true⟩)
        ⟨none, .ok ("elk-server"), 2, true, true, true⟩ =
      (some ⟨1, true, true, true⟩, none, .ok ⟨1, true, true, true⟩) :=
  (C1_process_reuse (some ⟨1, true, true, true⟩)
      ⟨none, .ok ("elk-server"), 2, true, true, true⟩).2.2.1
    ⟨1, true, true, true⟩ rfl rfl

/-- C2: when the single line read from the output stream is empty, the
whole error stream is read and the call fails with the engine-failure
RuntimeError whose message extends the error-stream content; the handle
kept in the global state is the one the exchange used. -/
theorem C2_empty_response (st : Option Proc) (g : JVal) (env : ExchangeEnv)
    (st1 : Option Proc) (c : Option LaunchCmd) (proc : Proc) (vg : ElkGraph) (d : String)
    (he : ensure_server_process st env.ensure = (st1, c, .ok proc))
    (hp : (proc.stdinOk && proc.stdoutOk && proc.stderrOk) = true)
    (hv : validateElkGraph g = .ok vg)
    (hw : env.writeRes = none) (hf : env.flushRes = none)
    (ho : env.outRes = .ok ("")) (hea : env.errAllRes = .ok d) :
    compute_layout st g env =
      (st1, [Event.write (model_dump_json vg ++ "\n"), Event.flush,
             Event.readOutLine (""), Event.readErrAll d],
       .engineFailure ("ELK server failed: " ++ d)) := by
  unfold compute_layout
  simp [he, hp, hv, hw, hf, ho, hea]

/-- Witness for C2 at a concrete exchange: empty response line, "boom" on
the error stream. -/
theorem C2_empty_response_witness :
    compute_layout none (JVal.obj [(("id"), JVal.str ("root"))])
        ⟨⟨none, .ok ("elk-server"), 1, true, true, true⟩, none, none,
         .ok (""), .ok ("boom"), .ok ("")⟩ =
      (some ⟨1, true, true, true⟩,
       [Event.write (model_dump_json ⟨"root", none, none, none⟩ ++ "\n"), Event.flush,
        Event.readOutLine (""), Event.readErrAll ("boom")],
       .engineFailure ("ELK server failed: boom")) :=
  C2_empty_response none (JVal.obj [(("id"), JVal.str ("root"))])
    ⟨⟨none, .ok ("elk-server"), 1, true, true, true⟩, none, none,
     .ok (""), .ok ("boom"), .ok ("")⟩
    (some ⟨1, true, true, true⟩)
    (some ⟨["elk-server", "--stdio"], true, true, true, true, 1⟩)
    ⟨1, true, true, true⟩ ⟨"root", none, none, none⟩ ("boom")
    rfl rfl rfl rfl rfl rfl rfl

/-- C3: with a non-empty response line already read, the error-stream line
is read next (output read strictly before error read, as the trace shows);
a stripped line ending in the benign trailer is discarded and the parsed
response is returned, while any other non-empty line wins over the response
and fails the call with the engine-error RuntimeError. -/
theorem C3_error_line_precedence (st : Option Proc) (g : JVal) (env : ExchangeEnv)
    (st1 : Option Proc) (c : Option LaunchCmd) (proc : Proc) (vg : ElkGraph)
    (r e : String)
    (he : ensure_server_process st env.ensure = (st1, c, .ok proc))
    (hp : (proc.stdinOk && proc.stdoutOk && proc.stderrOk) = true)
    (hv : validateElkGraph g = .ok vg)
    (hw : env.writeRes = none) (hf : env.flushRes = none)
    (ho : env.outRes = .ok r) (hr : r ≠ "")
    (hel : env.errLineRes = .ok e) (hne : e ≠ "") :
    (pyEndsWith (pyStrip e) benignTrailer = true →
        ∀ v, json_loads r = .ok v →
          compute_layout st g env =
            (st1, [Event.write (model_dump_json vg ++ "\n"), Event.flush,
                   Event.readOutLine r, Event.readErrLine e], .ok v)) ∧
    (pyEndsWith (pyStrip e) benignTrailer = false →
        compute_layout st g env =
          (st1, [Event.write (model_dump_json vg ++ "\n"), Event.flush,
                 Event.readOutLine r, Event.readErrLine e],
           .engineError ("ELK server error: " ++ pyStrip e))) := by
  constructor
  · intro hb v hj
    unfold compute_layout finishParse
    simp [he, hp, hv, hw, hf, ho, hr, hel, hne, hb, hj]
  · intro hb
    unfold compute_layout
    simp [he, hp, hv, hw, hf, ho, hr, hel, hne, hb]

/-- Witness for C3 at a concrete exchange: response line followed by the
benign trailer line, which is discarded. -/
theorem C3_error_line_precedence_witness :
    compute_layout none (JVal.obj [(("id"), JVal.str ("root"))])
        ⟨⟨none, .ok ("elk-server"), 1, true, true, true⟩, none, none,
         .ok ("\x7b\x7d"), .ok (""), .ok (" End of input at line 2 column 1 path $\n")⟩ =
      (some ⟨1, true, true, true⟩,
       [Event.write (model_dump_json ⟨"root", none, none, none⟩ ++ "\n"), Event.flush,
        Event.readOutLine ("\x7b\x7d"),
        Event.readErrLine (" End of input at line 2 column 1 path $\n")],
       .ok (.obj [])) :=
  (C3_error_line_precedence none (JVal.obj [(("id"), JVal.str ("root"))])
    ⟨⟨none, .ok ("elk-server"), 1, true, true, true⟩, none, none,
     .ok ("\x7b\x7d"), .ok (""), .ok (" End of input at line 2 column 1 path $\n")⟩
    (some ⟨1, true, true, true⟩)
    (some ⟨["elk-server", "--stdio"], true, true, true, true, 1⟩)
    ⟨1, true, true, true⟩ ⟨"root", none, none, none⟩
    ("\x7b\x7d") (" End of input at line 2 column 1 path $\n")
    rfl rfl rfl rfl rfl rfl (by decide) rfl (by decide)).1
    rfl (.obj []) rfl

/-- C4: an OSError at any stream operation of the exchange (write, flush,
output read, either error read) clears the global handle to None, fails the
call with the connection-failure RuntimeError, and the request is not
retried within the call (at most one line is ever written). -/
theorem C4_io_error_clears_handle (st : Option Proc) (g : JVal) (env : ExchangeEnv)
    (st1 : Option Proc) (c : Option LaunchCmd) (proc : Proc) (vg : ElkGraph) (m : String)
    (he : ensure_server_process st env.ensure = (st1, c, .ok proc))
    (hp : (proc.stdinOk && proc.stdoutOk && proc.stderrOk) = true)
    (hv : validateElkGraph g = .ok vg)
    (hio : env.writeRes = some m ∨
      (env.writeRes = none ∧ env.flushRes = some m) ∨
      (env.writeRes = none ∧ env.flushRes = none ∧ env.outRes = .error m) ∨
      (env.writeRes = none ∧ env.flushRes = none ∧ env.outRes = .ok ("") ∧
        env.errAllRes = .error m) ∨
      (∃ r, env.writeRes = none ∧ env.flushRes = none ∧ env.outRes = .ok r ∧ r ≠ "" ∧
        env.errLineRes = .error m)) :
    (compute_layout st g env).1 = none ∧
    (compute_layout st g env).2.2 =
      .connectionFailure ("ELK server connection failed: " ++ m) ∧
    countWrites (compute_layout st g env).2.1 ≤ 1 := by
  rcases hio with hw | ⟨hw, hf⟩ | ⟨hw, hf, ho⟩ | ⟨hw, hf, ho, hea⟩ | ⟨r, hw, hf, ho, hr, hel⟩
  · unfold compute_layout
    simp [countWrites, he, hp, hv, hw]
  · unfold compute_layout
    simp [countWrites, he, hp, hv, hw, hf]
  · unfold compute_layout
    simp [countWrites, he, hp, hv, hw, hf, ho]
  · unfold compute_layout
    simp [countWrites, he, hp, hv, hw, hf, ho, hea]
  · unfold compute_layout
    simp [countWrites, he, hp, hv, hw, hf, ho, hr, hel]

/-- Witness for C4 at a concrete exchange: the write raises a broken pipe. -/
theorem C4_io_error_clears_handle_witness :
    (compute_layout none (JVal.obj [(("id"), JVal.str ("root"))])
        ⟨⟨none, .ok ("elk-server"), 1, true, true, true⟩, some ("broken pipe"), none,
         .ok (""), .ok (""), .ok ("")⟩).1 = none ∧
    (compute_layout none (JVal.obj [(("id"), JVal.str ("root"))])
        ⟨⟨none, .ok ("elk-server"), 1, true, true, true⟩, some ("broken pipe"), none,
         .ok (""), .ok (""), .ok ("")⟩).2.2 =
      .connectionFailure ("ELK server connection failed: broken pipe") ∧
    countWrites (compute_layout none (JVal.obj [(("id"), JVal.str ("root"))])
        ⟨⟨none, .ok ("elk-server"), 1, true, true, true⟩, some ("broken pipe"), none,
         .ok (""), .ok (""), .ok ("")⟩).2.1 ≤ 1 :=
  C4_io_error_clears_handle none (JVal.obj [(("id"), JVal.str ("root"))])
    ⟨⟨none, .ok ("elk-server"), 1, true, true, true⟩, some ("broken pipe"), none,
     .ok (""), .ok (""), .ok ("")⟩
    (some ⟨1, true, true, true⟩)
    (some ⟨["elk-server", "--stdio"], true, true, true, true, 1⟩)
    ⟨1, true, true, true⟩ ⟨"root", none, none, none⟩ ("broken pipe")
    rfl rfl rfl (Or.inl rfl)

/-- A launch (a Popen call) can only have happened if the liveness poll of
the existing handle reported termination. -/
theorem ensure_launch_only_if {p : Proc} {env2 : EnsureEnv}
    (h : (ensure_server_process (some p) env2).2.1.isSome = true) :
    env2.pollRes.isSome = true := by
  rcases hpo : env2.pollRes with _ | code
  · exfalso
    rw [show ensure_server_process (some p) env2 =
        (if env2.pollRes.isSome then launch_new (some p) env2 else (some p, none, .ok p))
        from rfl] at h
    simp [hpo] at h
  · rfl

/-- C10: when the exchange fails because the output read returned an empty
response (engine-failure branch), the global handle is left exactly as the
exchange found it — not cleared to None — and a later
_ensure_server_process call performs a launch only if its liveness poll
reports the process as exited, and reuses the same handle when the poll
reports it alive. -/
theorem C10_engine_failure_keeps_handle (p : Proc) (g : JVal) (env : ExchangeEnv)
    (vg : ElkGraph) (d : String)
    (hpoll : env.ensure.pollRes = none)
    (hp : (p.stdinOk && p.stdoutOk && p.stderrOk) = true)
    (hv : validateElkGraph g = .ok vg)
    (hw : env.writeRes = none) (hf : env.flushRes = none)
    (ho : env.outRes = .ok ("")) (hea : env.errAllRes = .ok d) :
    compute_layout (some p) g env =
      (some p, [Event.write (model_dump_json vg ++ "\n"), Event.flush,
                Event.readOutLine (""), Event.readErrAll d],
       .engineFailure ("ELK server failed: " ++ d)) ∧
    (∀ env2 : EnsureEnv, (ensure_server_process (some p) env2).2.1.isSome = true →
        env2.pollRes.isSome = true) ∧
    (∀ env2 : EnsureEnv, env2.pollRes = none →
        ensure_server_process (some p) env2 = (some p, none, .ok p)) := by
  refine ⟨?_, fun env2 h => ensure_launch_only_if h, fun env2 h2 => ensure_reuse h2⟩
  unfold compute_layout
  simp [ensure_reuse hpoll, hp, hv, hw, hf, ho, hea]

/-- Witness for C10 at a concrete exchange: empty response with a live
existing process; the handle survives. -/
theorem C10_engine_failure_keeps_handle_witness :
    compute_layout (some ⟨7, true, true, true⟩) (JVal.obj [(("id"), JVal.str ("root"))])
        ⟨⟨none, .ok ("elk-server"), 1, true, true, true⟩, none, none,
         .ok (""), .ok ("crashed"), .ok ("")⟩ =
      (some ⟨7, true, true, true⟩,
       [Event.write (model_dump_json ⟨"root", none, none, none⟩ ++ "\n"), Event.flush,
        Event.readOutLine (""), Event.readErrAll ("crashed")],
       .engineFailure ("ELK server failed: crashed")) :=
  (C10_engine_failure_keeps_handle ⟨7, true, true, true⟩
    (JVal.obj [(("id"), JVal.str ("root"))])
    ⟨⟨none, .ok ("elk-server"), 1, true, true, true⟩, none, none,
     .ok (""), .ok ("crashed"), .ok ("")⟩
    ⟨"root", none, none, none⟩ ("crashed")
    rfl rfl rfl rfl rfl rfl rfl).1

/-- C7: an input that fails schema validation never causes a request line
to be written to the engine, and on the normal path (process available with
valid pipes) the call fails with exactly the validation error, with no
stream operation at all. -/
theorem C7_validation_before_exchange (st : Option Proc) (g : JVal) (env : ExchangeEnv)
    (m : String) (hv : validateElkGraph g = .error m) :
    countWrites (compute_layout st g env).2.1 = 0 ∧
    (∀ st1 c proc, ensure_server_process st env.ensure = (st1, c, .ok proc) →
        (proc.stdinOk && proc.stdoutOk && proc.stderrOk) = true →
        compute_layout st g env = (st1, [], .validationError m)) := by
  constructor
  · rcases he : ensure_server_process st env.ensure with ⟨st1, c, r⟩
    rcases r with e | proc
    · unfold compute_layout
      simp [countWrites, he]
    · rcases hp : (proc.stdinOk && proc.stdoutOk && proc.stderrOk) with _ | _
      · unfold compute_layout
        simp [countWrites, he, hp]
      · unfold compute_layout
        simp [countWrites, he, hp, hv]
  · intro st1 c proc he hp
    unfold compute_layout
    simp [he, hp, hv]

/-- Witness for C7 at a concrete call: a non-object input fails validation
and nothing is written. -/
theorem C7_validation_before_exchange_witness :
    countWrites (compute_layout none (JVal.str ("oops"))
        ⟨⟨none, .ok ("elk-server"), 1, true, true, true⟩, none, none,
         .ok (""), .ok (""), .ok ("")⟩).2.1 = 0 ∧
    compute_layout none (JVal.str ("oops"))
        ⟨⟨none, .ok ("elk-server"), 1, true, true, true⟩, none, none,
         .ok (""), .ok (""), .ok ("")⟩ =
      (some ⟨1, true, true, true⟩, [],
       .validationError ("Input should be a valid dictionary: ElkGraph")) :=
  ⟨(C7_validation_before_exchange none (JVal.str ("oops"))
      ⟨⟨none, .ok ("elk-server"), 1, true, true, true⟩, none, none,
       .ok (""), .ok (""), .ok ("")⟩
      ("Input should be a valid dictionary: ElkGraph") rfl).1,
   (C7_validation_before_exchange none (JVal.str ("oops"))
      ⟨⟨none, .ok ("elk-server"), 1, true, true, true⟩, none, none,
       .ok (""), .ok (""), .ok ("")⟩
      ("Input should be a valid dictionary: ElkGraph") rfl).2
     (some ⟨1, true, true, true⟩)
     (some ⟨["elk-server", "--stdio"], true, true, true, true, 1⟩)
     ⟨1, true, true, true⟩ rfl rfl⟩

/-- C8: on a valid graph the exchange writes exactly one line — the
serialized graph followed by a single newline — then flushes, and only then
reads the response (the trace starts write, flush, read); the serialized
document is a single line (it contains no raw newline); and the top-level
keys of the document are exactly the declared fields whose value is not
None (exclude_none). -/
theorem C8_single_line_write (st : Option Proc) (g : JVal) (env : ExchangeEnv)
    (st1 : Option Proc) (c : Option LaunchCmd) (proc : Proc) (vg : ElkGraph)
    (he : ensure_server_process st env.ensure = (st1, c, .ok proc))
    (hp : (proc.stdinOk && proc.stdoutOk && proc.stderrOk) = true)
    (hv : validateElkGraph g = .ok vg)
    (hw : env.writeRes = none) (hf : env.flushRes = none) :
    (∀ r, env.outRes = .ok r →
        ∃ rest, (compute_layout st g env).2.1 =
          Event.write (model_dump_json vg ++ "\n") :: Event.flush ::
            Event.readOutLine r :: rest) ∧
    noNL (model_dump_json vg) ∧
    ((graphFields vg).map Prod.fst =
      [("id")] ++ (if vg.properties.isSome then [(("properties"))] else [])
        ++ (if vg.children.isSome then [(("children"))] else [])
        ++ (if vg.edges.isSome then [(("edges"))] else [])) := by
  refine ⟨?_, noNL_model_dump_json vg, ?_⟩
  · intro r ho
    unfold compute_layout finishParse
    by_cases hr : r = ""
    · subst hr
      rcases hea : env.errAllRes with m2 | d
      · exact ⟨[], by simp [he, hp, hv, hw, hf, ho, hea]⟩
      · exact ⟨[Event.readErrAll d], by simp [he, hp, hv, hw, hf, ho, hea]⟩
    · rcases hel : env.errLineRes with m2 | e
      · exact ⟨[], by simp [he, hp, hv, hw, hf, ho, hr, hel]⟩
      · by_cases hne : e = ""
        · subst hne
          rcases hj : json_loads r with m3 | v
          · exact ⟨[Event.readErrLine ("")], by simp [he, hp, hv, hw, hf, ho, hr, hel, hj]⟩
          · exact ⟨[Event.readErrLine ("")], by simp [he, hp, hv, hw, hf, ho, hr, hel, hj]⟩
        · rcases hbe : pyEndsWith (pyStrip e) benignTrailer with _ | _
          · exact ⟨[Event.readErrLine e], by simp [he, hp, hv, hw, hf, ho, hr, hel, hne, hbe]⟩
          · rcases hj : json_loads r with m3 | v
            · exact ⟨[Event.readErrLine e],
                by simp [he, hp, hv, hw, hf, ho, hr, hel, hne, hbe, hj]⟩
            · exact ⟨[Event.readErrLine e],
                by simp [he, hp, hv, hw, hf, ho, hr, hel, hne, hbe, hj]⟩
  · rcases vg with ⟨i, p, ch, ed⟩
    rcases p with _ | p <;> rcases ch with _ | ch <;> rcases ed with _ | ed <;>
      simp [graphFields]

/-- Witness for C8 at a concrete exchange: a minimal graph, successful
write and flush, a response line read afterwards. -/
theorem C8_single_line_write_witness :
    (∃ rest, (compute_layout none (JVal.obj [(("id"), JVal.str ("root"))])
        ⟨⟨none, .ok ("elk-server"), 1, true, true, true⟩, none, none,
         .ok ("resp"), .ok (""), .ok ("")⟩).2.1 =
      Event.write (model_dump_json ⟨"root", none, none, none⟩ ++ "\n") :: Event.flush ::
        Event.readOutLine ("resp") :: rest) ∧
    noNL (model_dump_json ⟨"root", none, none, none⟩) :=
  ⟨(C8_single_line_write none (JVal.obj [(("id"), JVal.str ("root"))])
      ⟨⟨none, .ok ("elk-server"), 1, true, true, true⟩, none, none,
       .ok ("resp"), .ok (""), .ok ("")⟩
      (some ⟨1, true, true, true⟩)
      (some ⟨["elk-server", "--stdio"], true, true, true, true, 1⟩)
      ⟨1, true, true, true⟩ ⟨"root", none, none, none⟩
      rfl rfl rfl rfl rfl).1 ("resp") rfl,
   (C8_single_line_write none (JVal.obj [(("id"), JVal.str ("root"))])
      ⟨⟨none, .ok ("elk-server"), 1, true, true, true⟩, none, none,
       .ok ("resp"), .ok (""), .ok ("")⟩
      (some ⟨1, true, true, true⟩)
      (some ⟨["elk-server", "--stdio"], true, true, true, true, 1⟩)
      ⟨1, true, true, true⟩ ⟨"root", none, none, none⟩
      rfl rfl rfl rfl rfl).2.1⟩

/-- The invalid graph of tests/test_server.py::test_invalid_layout: nodes
without width/height, and an edge without sources/targets. -/
def invalidTestGraph : JVal :=
  .obj [(("id"), .str ("root")),
        (("children"), .arr [.obj [(("id"), .str ("n1"))], .obj [(("id"), .str ("n2"))]]),
        (("edges"), .arr [.obj [(("id"), .str ("e1"))]])]

/-- C6 evidence: the graph of test_invalid_layout does NOT pass the local
ElkGraph schema validation — the edge's required `sources` field is missing,
so compute_layout fails with a local validation error before anything is
written; the request never reaches the engine, contradicting the claim (and
the repository's own test, which expects a RuntimeError mentioning the
engine). -/
theorem C6_invalid_graph_fails_locally :
    validateElkGraph invalidTestGraph = .error ("Field required: sources") ∧
    compute_layout none invalidTestGraph
        ⟨⟨none, .ok ("elk-server"), 1, true, true, true⟩, none, none,
         .ok (""), .ok (""), .ok ("")⟩ =
      (some ⟨1, true, true, true⟩, [],
       .validationError ("Field required: sources")) :=
  ⟨rfl, rfl⟩

end ElkSpec
